import Mathlib

/-!
Verification of the farm GHG what-if tool (metrics engine, suggestion engine,
command interpreter, trend window) against its natural-language specification.

The JavaScript source is shallowly embedded over `ℚ`:
JS numbers become rationals; `x.toFixed(d)` followed by unary `+` becomes
rounding half-up at `d` decimal places (ECMAScript `toFixed` picks the larger
candidate integer on a tie, i.e. `⌊x * 10^d + 1/2⌋ / 10^d`); `Math.round`
becomes `⌊x + 1/2⌋`.  Strings are Lean `String`s, and the fixed substring /
pattern dispatching of the chat interpreter is embedded as explicit scanners
over `List Char`.
-/

/-- JS `+(x).toFixed(2)`: round half-up to 2 decimal places.
Uses `Rat.floor` (the executable floor on `ℚ`). -/
def jsToFixed2 (x : ℚ) : ℚ := ((x * 100 + 1/2).floor : ℚ) / 100

/-- JS `+(x).toFixed(1)`: round half-up to 1 decimal place. -/
def jsToFixed1 (x : ℚ) : ℚ := ((x * 10 + 1/2).floor : ℚ) / 10

/-- JS `Math.round(x)` = `⌊x + 1/2⌋` (round half toward +infinity), as a rational. -/
def jsMathRound (x : ℚ) : ℚ := ((x + 1/2).floor : ℚ)

/-! ### Constants (maincomponent.js lines 16-21, FarmDashboard.js FARM_CONSTANTS) -/

def EMISSIONS_THRESHOLD : ℚ := 1.5
def COST_PER_LITRE_THRESHOLD : ℚ := 0.35
def PROTEIN_EFFICIENCY_THRESHOLD : ℚ := 12
def NITROGEN_EFFICIENCY_THRESHOLD : ℚ := 15
def TARGET_YIELD : ℚ := 9000
def BASE_OPERATIONAL_COST : ℚ := 0.20

/-! ### Calculation functions (maincomponent.js lines 24-29) -/

/-- `calculateEmissions = (feed) => +(1.39 + (0.05 * (feed - 8.08))).toFixed(2)` -/
def calculateEmissions (feed : ℚ) : ℚ := jsToFixed2 (1.39 + 0.05 * (feed - 8.08))

/-- `calculateYield = (feed) => Math.round(8750 + (100 * (feed - 8.08)))` -/
def calculateYield (feed : ℚ) : ℚ := jsMathRound (8750 + 100 * (feed - 8.08))

/-- `calculateCostPerLitre = (feed, yield_, feedCostPerKg) =>
      +(0.25 + ((feed * feedCostPerKg * 365) / yield_)).toFixed(2)`.
In `ℚ` division by zero yields 0, whereas in JS it yields ±Infinity; the source
performs the division unconditionally in either case. -/
def calculateCostPerLitre (feed yield_ feedCostPerKg : ℚ) : ℚ :=
  jsToFixed2 (0.25 + (feed * feedCostPerKg * 365) / yield_)

/-- `calculateProteinEfficiency = (feed) => +(14.3 - (0.1 * (feed - 8.08))).toFixed(1)` -/
def calculateProteinEfficiency (feed : ℚ) : ℚ := jsToFixed1 (14.3 - 0.1 * (feed - 8.08))

/-- `calculateNitrogenEfficiency = (nitrogen) => +(17.6 - (0.02 * (nitrogen - 180))).toFixed(1)` -/
def calculateNitrogenEfficiency (nitrogen : ℚ) : ℚ := jsToFixed1 (17.6 - 0.02 * (nitrogen - 180))

/-! ### getNextMonth (maincomponent.js lines 31-35) -/

def months : List String :=
  ["Jan", "Feb", "Mar", "Apr", "May", "Jun", "Jul", "Aug", "Sep", "Oct", "Nov", "Dec"]

/-- Helper for `jsIndexOf`: position of the first match, carrying the index. -/
def idxAux : List String → String → Nat → Int
  | [], _, _ => -1
  | x :: t, s, k => if x = s then (k : Int) else idxAux t s (k + 1)

/-- JS `Array.prototype.indexOf`: index of the first occurrence, `-1` if absent. -/
def jsIndexOf (xs : List String) (s : String) : Int := idxAux xs s 0

/-- `getNextMonth = (currentMonth) => { const index = months.indexOf(currentMonth);
      return months[(index + 1) % 12]; }`.
The computed index is always in `[0, 11]` (`(-1 + 1) % 12 = 0` when absent), so the
JS array access never yields `undefined`; the `getD` default is therefore dead code. -/
def getNextMonth (currentMonth : String) : String :=
  months.getD ((jsIndexOf months currentMonth + 1) % 12).toNat "undefined"

/-! ### Parameter state and update protocol (maincomponent.js lines 40-48, 62-77) -/

/-- The `params` state object of `GHGToolEnhanced`. -/
structure Params where
  concentrateFeed : ℚ
  nitrogenRate : ℚ
  emissions : ℚ
  yield : ℚ
  costPerLitre : ℚ
  proteinEfficiency : ℚ
  nitrogenEfficiency : ℚ

/-- The `newParams` record built by `updateParams` (maincomponent.js lines 62-73):
recomputes every derived metric from the new feed/nitrogen inputs and the feed cost. -/
def updateParams (newFeed newNitrogen feedCostPerKg : ℚ) : Params :=
  let yieldValue := calculateYield newFeed
  { concentrateFeed := newFeed
    nitrogenRate := newNitrogen
    emissions := calculateEmissions newFeed
    yield := yieldValue
    costPerLitre := calculateCostPerLitre newFeed yieldValue feedCostPerKg
    proteinEfficiency := calculateProteinEfficiency newFeed
    nitrogenEfficiency := calculateNitrogenEfficiency newNitrogen }

/-! ### Trend window (maincomponent.js lines 55-60, 99-112) -/

/-- One entry of the `yieldData` series. -/
structure TrendPoint where
  month : String
  yield : ℚ
  target : ℚ
  cost : ℚ

/-- The initial `yieldData` state (maincomponent.js lines 55-60). -/
def initialYieldData : List TrendPoint :=
  [{ month := "Jan", yield := 8750, target := TARGET_YIELD, cost := 0.32 },
   { month := "Feb", yield := 8900, target := TARGET_YIELD, cost := 0.32 },
   { month := "Mar", yield := 8800, target := TARGET_YIELD, cost := 0.32 },
   { month := "Apr", yield := 8650, target := TARGET_YIELD, cost := 0.32 }]

/-- `updateYieldData` (maincomponent.js lines 99-112): read the last point's month,
drop the oldest point (`prev.slice(1)`), append a fresh point for the next month.
The JS reads `prev[prev.length - 1].month`, which throws on an empty array; the
`none` branch returns `prev` unchanged as a total stand-in for that unreachable
crash (the session list always has 4 points), and all theorems assume nonempty. -/
def updateYieldData (newParams : Params) (prev : List TrendPoint) : List TrendPoint :=
  match prev.getLast? with
  | none => prev
  | some lastPt =>
    prev.drop 1 ++
      [{ month := getNextMonth lastPt.month
         yield := newParams.yield
         target := TARGET_YIELD
         cost := newParams.costPerLitre }]

/-- The month label of the newest trend point, if any. -/
def lastMonth (l : List TrendPoint) : Option String := l.getLast?.map TrendPoint.month

/-! ### Suggestion engine (maincomponent.js lines 156-200) -/

/-- One optimization suggestion.  The `suggestion`/`impact` strings of the source
interpolate at most one computed number each; the embedding carries those numbers
directly (`reducedFeed` for the interpolation in rule 1's suggestion text,
`reductionFigure` for the percentage in rule 1's impact text; `none` for the
static texts of the other rules). -/
structure Suggestion where
  type : String
  priority : String
  reducedFeed : Option ℚ := none
  reductionFigure : Option ℚ := none

/-- `generateSuggestions` (maincomponent.js lines 156-200): four independent rules
evaluated in fixed order against the current params. -/
def generateSuggestions (params : Params) : List Suggestion :=
  (if EMISSIONS_THRESHOLD < params.emissions then
    let reducedFeed := jsToFixed2 (params.concentrateFeed * 0.9)
    let potentialEmissions := calculateEmissions reducedFeed
    let emissionsReduction :=
      jsToFixed1 ((params.emissions - potentialEmissions) / params.emissions * 100)
    [{ type := "emission", priority := "high",
       reducedFeed := some reducedFeed, reductionFigure := some emissionsReduction }]
  else []) ++
  (if params.nitrogenEfficiency < NITROGEN_EFFICIENCY_THRESHOLD then
    [{ type := "nitrogen", priority := "medium" }]
  else []) ++
  (if params.proteinEfficiency < PROTEIN_EFFICIENCY_THRESHOLD then
    [{ type := "protein", priority := "medium" }]
  else []) ++
  (if COST_PER_LITRE_THRESHOLD < params.costPerLitre then
    [{ type := "cost", priority := "high" }]
  else [])

/-! ### FarmDashboard.js metrics (lines 78-97) -/

/-- `baseMetrics.emissions` (FarmDashboard.js line 80): full-precision, unrounded. -/
def baseEmissions (F : ℚ) : ℚ := 1.39 + 0.05 * (F - 8.08)

/-- `baseMetrics.yield` (FarmDashboard.js line 81): full-precision, unrounded. -/
def baseYield (F : ℚ) : ℚ := 8750 + 100 * (F - 8.08)

/-- `baseMetrics.proteinEfficiency` (FarmDashboard.js line 82). -/
def baseProteinEfficiency (F : ℚ) : ℚ := 14.3 - 0.1 * (F - 8.08)

/-- `baseMetrics.nitrogenEfficiency` (FarmDashboard.js line 83). -/
def baseNitrogenEfficiency (N : ℚ) : ℚ := 17.6 - 0.02 * (N - 180)

/-- `efficiencyScore.environmental` (FarmDashboard.js line 87):
`Math.max(0, 100 - (emissions / THRESHOLDS.emissions) * 100)`. -/
def environmentalScore (em : ℚ) : ℚ := max 0 (100 - (em / EMISSIONS_THRESHOLD) * 100)

/-- `efficiencyScore.economic` (FarmDashboard.js line 88):
`Math.max(0, 100 - (yield * BASE_OPERATIONAL / costPerLitre threshold) * 100)`. -/
def economicScore (y : ℚ) : ℚ :=
  max 0 (100 - (y * BASE_OPERATIONAL_COST / COST_PER_LITRE_THRESHOLD) * 100)

/-- `efficiencyScore.operational` (FarmDashboard.js line 89). -/
def operationalScore (p n : ℚ) : ℚ := (p + n) / 2

/-- `metrics.totalScore` (FarmDashboard.js line 95): mean of the three scores. -/
def totalScore (F N : ℚ) : ℚ :=
  (environmentalScore (baseEmissions F) + economicScore (baseYield F) +
    operationalScore (baseProteinEfficiency F) (baseNitrogenEfficiency N)) / 3

/-! ### ChatWindow.js command interpreter (processQuery, lines 475-587) -/

/-- Character-list prefix test (structural helper for the substring scanners). -/
def isPre : List Char → List Char → Bool
  | [], _ => true
  | _ :: _, [] => false
  | a :: as, b :: bs => a == b && isPre as bs

/-- Substring occurrence test: does `n` occur contiguously in the second list? -/
def hasSub (n : List Char) : List Char → Bool
  | [] => n.isEmpty
  | c :: t => isPre n (c :: t) || hasSub n t

/-- JS `String.prototype.includes`. -/
def jsIncludes (s : String) (sub : String) : Bool := hasSub sub.data s.data

/-- JS `String.prototype.trim` on a character list: strip whitespace at both ends. -/
def trimChars (l : List Char) : List Char :=
  ((l.dropWhile Char.isWhitespace).reverse.dropWhile Char.isWhitespace).reverse

/-- `query.toLowerCase().trim()` (ChatWindow.js line 476). -/
def normalizeQuery (q : String) : String := String.mk (trimChars (q.data.map Char.toLower))

/-- JS `parseInt` on a (nonempty, all-digit) capture: digits to a natural number. -/
def natOfDigits (l : List Char) : Nat := l.foldl (fun acc c => acc * 10 + (c.toNat - '0'.toNat)) 0

/-- The literal part of the regex `/reduce feed by (\d+)%/`. -/
def reduceFeedPat : List Char := "reduce feed by ".data

/-- Attempt the regex `reduce feed by (\d+)%` at the current position: the literal
prefix, then a maximal nonempty digit run, then `%` (the greedy `\d+` followed by
the literal `%` matches exactly when the maximal digit run is followed by `%`). -/
def tryRF (l : List Char) : Option Nat :=
  if isPre reduceFeedPat l then
    let rest := l.drop reduceFeedPat.length
    let ds := rest.takeWhile Char.isDigit
    if ds ≠ [] ∧ (rest.drop ds.length).head? = some '%' then some (natOfDigits ds) else none
  else none

/-- Scan all start positions left to right, as the JS regex engine does. -/
def scanRF : List Char → Option Nat
  | [] => none
  | c :: t =>
    match tryRF (c :: t) with
    | some v => some v
    | none => scanRF t

/-- `normalizedQuery.match(/reduce feed by (\d+)%/)` with `parseInt` on the capture. -/
def matchReduceFeed (s : String) : Option Nat := scanRF s.data

/-- Decimal rendering of a hundredths count, for `toFixed(2)` display output. -/
def fmtHundredths (n : ℤ) : String :=
  let k := n.toNat
  toString (k / 100) ++ "." ++
    (if k % 100 < 10 then "0" ++ toString (k % 100) else toString (k % 100))

/-- JS `x.toFixed(2)` as a display string, modelled for the nonnegative values that
reach it in `processQuery` (`newFeed = currentFeed * (1 - P/100)` with `P ≤ 100`). -/
def formatFixed2 (x : ℚ) : String := fmtHundredths (x * 100 + 1/2).floor

/-- The mutable farm parameters held by `FarmDashboard` and mutated by `processQuery`. -/
structure FarmState where
  concentrateFeed : ℚ
  nitrogenRate : ℚ

/-- The kind of response node `processQuery` returns. -/
inductive RespKind
  | chart
  | metricsDisplay
  | confirmation
  | clarify
  | error
  | help
deriving DecidableEq

/-- Result of one `processQuery` call: the response kind, the user-visible text we
model (the confirmation / validation-error sentence), and the farm state after the
call (`setFarmState` is only invoked on the valid reduce-feed path). -/
structure QueryOutcome where
  kind : RespKind
  text : String
  newParams : FarmState

/-- `processQuery` (ChatWindow.js lines 475-587): ordered substring dispatch,
first match wins.  The reduce-feed branch extracts the percentage, validates
`(0, 100]`, and on success emits the mutation `concentrateFeed := newFeed`
(nitrogenRate untouched) with a confirmation text interpolating `P` and
`newFeed.toFixed(2)`. -/
def processQuery (q : String) (s : FarmState) : QueryOutcome :=
  let nq := normalizeQuery q
  if jsIncludes nq "show" && jsIncludes nq "emissions" then
    { kind := .chart, text := "Showing emissions trends over the selected timeframe",
      newParams := s }
  else if jsIncludes nq "analyze" && jsIncludes nq "efficiency" then
    { kind := .metricsDisplay, text := "Recommendations: adjust feed levels; optimize nitrogen",
      newParams := s }
  else if jsIncludes nq "reduce feed" then
    match matchReduceFeed nq with
    | some p =>
      if p ≤ 0 ∨ 100 < p then
        { kind := .error,
          text := "Please specify a valid reduction percentage between 1 and 100.",
          newParams := s }
      else
        let newFeed := s.concentrateFeed * (1 - (p : ℚ) / 100)
        { kind := .confirmation,
          text := "Feed reduced by " ++ toString p ++ "% to " ++ formatFixed2 newFeed
                    ++ " kg/day.",
          newParams := { s with concentrateFeed := newFeed } }
    | none =>
      { kind := .clarify,
        text := "Please specify the percentage by which you want to reduce the feed.",
        newParams := s }
  else
    { kind := .help, text := "I am not sure how to help with that query.",
      newParams := s }

/-- Message log entry kind (ChatWindow.js message `type` field). -/
inductive MsgType
  | user
  | system
deriving DecidableEq

/-- One message of the chat log. -/
structure Msg where
  mtype : MsgType
  text : String

/-- Chat session state: message log plus the shared farm parameters. -/
structure ChatState where
  messages : List Msg
  farm : FarmState

/-- `handleSend` (ChatWindow.js lines 449-473): ignore blank input, otherwise append
the user's raw utterance, run `processQuery` (which may mutate the farm state), and
append the system response — exactly two log entries per non-blank invocation. -/
def handleSend (input : String) (st : ChatState) : ChatState :=
  if (trimChars input.data).isEmpty then st
  else
    let o := processQuery input st.farm
    { messages := st.messages ++
        [{ mtype := .user, text := input }, { mtype := .system, text := o.text }],
      farm := o.newParams }

/-! ### Spec-side definitions (from the specification's words, for comparison) -/

/-- Modelled from the spec: the calendar successor of a month abbreviation,
"wrapping Dec to Jan" (§4.4); identity outside the twelve abbreviations. -/
def monthSucc : String → String
  | "Jan" => "Feb"
  | "Feb" => "Mar"
  | "Mar" => "Apr"
  | "Apr" => "May"
  | "May" => "Jun"
  | "Jun" => "Jul"
  | "Jul" => "Aug"
  | "Aug" => "Sep"
  | "Sep" => "Oct"
  | "Oct" => "Nov"
  | "Nov" => "Dec"
  | "Dec" => "Jan"
  | m => m

/-! ### Helper lemmas -/

/-- The executable `Rat.floor` agrees with Mathlib's `Int.floor` on `ℚ`. -/
theorem ratFloor_eq_intFloor (q : ℚ) : q.floor = ⌊q⌋ := by
  rw [Rat.floor_def, Rat.floor_def']

theorem ratFloor_mono {x y : ℚ} (h : x ≤ y) : x.floor ≤ y.floor := by
  rw [ratFloor_eq_intFloor, ratFloor_eq_intFloor]
  exact Int.floor_mono h

theorem jsToFixed2_mono {x y : ℚ} (h : x ≤ y) : jsToFixed2 x ≤ jsToFixed2 y := by
  unfold jsToFixed2
  have hf : (x * 100 + 1/2).floor ≤ (y * 100 + 1/2).floor := ratFloor_mono (by linarith)
  have hq : ((x * 100 + 1/2).floor : ℚ) ≤ ((y * 100 + 1/2).floor : ℚ) := by exact_mod_cast hf
  linarith

theorem jsMathRound_mono {x y : ℚ} (h : x ≤ y) : jsMathRound x ≤ jsMathRound y := by
  unfold jsMathRound
  have hf : (x + 1/2).floor ≤ (y + 1/2).floor := ratFloor_mono (by linarith)
  exact_mod_cast hf

/-- On the twelve month abbreviations, the source's `getNextMonth` computes the
spec's calendar successor. -/
theorem getNextMonth_eq_monthSucc {m : String} (hm : m ∈ months) :
    getNextMonth m = monthSucc m := by
  fin_cases hm <;> decide

theorem monthSucc_mem {m : String} (hm : m ∈ months) : monthSucc m ∈ months := by
  fin_cases hm <;> decide

theorem getLast?_append_singleton {α : Type} (l : List α) (a : α) :
    (l ++ [a]).getLast? = some a := by
  rw [List.getLast?_append_cons]
  rfl


/-! ### Claim theorems -/

/-- C8: the environmental efficiency score is computed as
`max(0, 100 - (emissions / 1.5) * 100)` and is therefore clamped at zero — it is
nonnegative for every emissions value, however large. -/
theorem environmentalScore_nonneg (em : ℚ) :
    environmentalScore em = max 0 (100 - (em / 1.5) * 100) ∧ 0 ≤ environmentalScore em :=
  ⟨rfl, le_max_left 0 _⟩

/-- C9: for every nonnegative concentrate feed the dashboard yield is at least 7942,
so the economic efficiency score is exactly 0 (the `max` with 0 applies), and the
total score degenerates to `(environmental + operational) / 3`. -/
theorem economicScore_zero_total (F N : ℚ) (hF : 0 ≤ F) :
    7942 ≤ baseYield F ∧
    economicScore (baseYield F) = 0 ∧
    totalScore F N = (environmentalScore (baseEmissions F) +
      operationalScore (baseProteinEfficiency F) (baseNitrogenEfficiency N)) / 3 := by
  have hy : (7942 : ℚ) ≤ baseYield F := by
    unfold baseYield
    nlinarith
  have h0 : economicScore (baseYield F) = 0 := by
    unfold economicScore BASE_OPERATIONAL_COST COST_PER_LITRE_THRESHOLD
    apply max_eq_left
    have h2 : baseYield F * 0.20 / 0.35 * 100 = baseYield F * (400/7) := by ring
    rw [h2]
    nlinarith
  refine ⟨hy, h0, ?_⟩
  unfold totalScore
  rw [h0]
  ring

/-- C9 witness: the theorem applied at the baseline feed 8.08 and nitrogen 180. -/
theorem economicScore_zero_total_witness :
    (0 : ℚ) ≤ 8.08 ∧
    (7942 ≤ baseYield 8.08 ∧
     economicScore (baseYield 8.08) = 0 ∧
     totalScore 8.08 180 = (environmentalScore (baseEmissions 8.08) +
       operationalScore (baseProteinEfficiency 8.08) (baseNitrogenEfficiency 180)) / 3) :=
  ⟨by norm_num, economicScore_zero_total 8.08 180 (by norm_num)⟩

/-- C10: `getNextMonth` is total on all strings: on any input that is not one of the
twelve month abbreviations, `indexOf` yields `-1` and `(-1 + 1) % 12 = 0`, so it
returns `"Jan"`; and for every input whatsoever its result is one of the twelve
month abbreviations (never `undefined`/out of range). -/
theorem getNextMonth_total (s : String) :
    (s ∉ months → getNextMonth s = "Jan") ∧ getNextMonth s ∈ months := by
  by_cases hs : s ∈ months
  · exact ⟨fun h => absurd hs h, by fin_cases hs <;> decide⟩
  · have hidx : jsIndexOf months s = -1 := by
      simp only [months, List.mem_cons, List.mem_singleton, not_or] at hs
      obtain ⟨h1, h2, h3, h4, h5, h6, h7, h8, h9, h10, h11, h12, -⟩ := hs
      simp [jsIndexOf, idxAux, months, Ne.symm h1, Ne.symm h2, Ne.symm h3, Ne.symm h4,
        Ne.symm h5, Ne.symm h6, Ne.symm h7, Ne.symm h8, Ne.symm h9, Ne.symm h10,
        Ne.symm h11, Ne.symm h12]
    have hJ : getNextMonth s = "Jan" := by
      unfold getNextMonth
      rw [hidx]
      rfl
    exact ⟨fun _ => hJ, by rw [hJ]; decide⟩

/-- C10 witness: the theorem applied at the non-month string "Foo". -/
theorem getNextMonth_total_witness :
    "Foo" ∉ months ∧ getNextMonth "Foo" = "Jan" ∧ getNextMonth "Foo" ∈ months :=
  ⟨by decide, (getNextMonth_total "Foo").1 (by decide), (getNextMonth_total "Foo").2⟩

/-- C7 counterexample: the engine's `calculateEmissions`/`calculateYield` do NOT
equal the linear formulas exactly — at feed 8 the code returns 1.39 while the
formula gives 1.386, and at feed 8.001 the code returns 8742 while the formula
gives 8742.1 (the code rounds to 2 decimals / nearest integer internally). -/
theorem emissions_formula_counterexample :
    calculateEmissions 8 ≠ 1.39 + 0.05 * ((8 : ℚ) - 8.08) ∧
    calculateYield 8.001 ≠ 8750 + 100 * ((8.001 : ℚ) - 8.08) := by
  constructor
  · unfold calculateEmissions jsToFixed2
    rw [ratFloor_eq_intFloor]
    norm_num
  · unfold calculateYield jsMathRound
    rw [ratFloor_eq_intFloor]
    norm_num

/-- C7 amended: the dashboard's unrounded `baseMetrics` emissions/yield equal the
linear formulas exactly and are strictly increasing in the feed, while the engine's
`calculateEmissions`/`calculateYield` equal those formulas rounded (half-up to 2
decimals, resp. nearest integer) and are therefore only monotone nondecreasing. -/
theorem emissions_yield_formula_amended (F G : ℚ) (h : F < G) :
    baseEmissions F = 1.39 + 0.05 * (F - 8.08) ∧
    baseYield F = 8750 + 100 * (F - 8.08) ∧
    baseEmissions F < baseEmissions G ∧
    baseYield F < baseYield G ∧
    calculateEmissions F = jsToFixed2 (baseEmissions F) ∧
    calculateYield F = jsMathRound (baseYield F) ∧
    calculateEmissions F ≤ calculateEmissions G ∧
    calculateYield F ≤ calculateYield G := by
  refine ⟨rfl, rfl, ?_, ?_, rfl, rfl, ?_, ?_⟩
  · unfold baseEmissions
    linarith
  · unfold baseYield
    linarith
  · unfold calculateEmissions
    exact jsToFixed2_mono (by linarith)
  · unfold calculateYield
    exact jsMathRound_mono (by linarith)

/-- C7 amended witness: the theorem applied at the concrete pair 1 < 2. -/
theorem emissions_yield_formula_amended_witness :
    (1 : ℚ) < 2 ∧
    (baseEmissions 1 = 1.39 + 0.05 * ((1 : ℚ) - 8.08) ∧
     baseYield 1 = 8750 + 100 * ((1 : ℚ) - 8.08) ∧
     baseEmissions 1 < baseEmissions 2 ∧
     baseYield 1 < baseYield 2 ∧
     calculateEmissions 1 = jsToFixed2 (baseEmissions 1) ∧
     calculateYield 1 = jsMathRound (baseYield 1) ∧
     calculateEmissions 1 ≤ calculateEmissions 2 ∧
     calculateYield 1 ≤ calculateYield 2) :=
  ⟨by norm_num, emissions_yield_formula_amended 1 2 (by norm_num)⟩

/-- C3 counterexample: the engine rounds internally — at feed 8.13 the stored
protein efficiency is 14.3, not the full-precision 14.295; and at feed 8.131 the
stored cost per litre differs from the full-precision formula computed with the
unrounded yield (the code divides by the rounded yield and rounds the result). -/
theorem engine_rounds_internally_counterexample :
    (updateParams 8.13 180 0.38).proteinEfficiency ≠ 14.3 - 0.1 * ((8.13 : ℚ) - 8.08) ∧
    (updateParams 8.131 180 0.38).costPerLitre ≠
      0.25 + (8.131 * 0.38 * 365) / (8750 + 100 * ((8.131 : ℚ) - 8.08)) := by
  constructor
  · show calculateProteinEfficiency 8.13 ≠ _
    unfold calculateProteinEfficiency jsToFixed1
    rw [ratFloor_eq_intFloor]
    norm_num
  · show calculateCostPerLitre 8.131 (calculateYield 8.131) 0.38 ≠ _
    have hy : calculateYield 8.131 = 8755 := by
      unfold calculateYield jsMathRound
      rw [ratFloor_eq_intFloor]
      norm_num
    rw [hy]
    unfold calculateCostPerLitre jsToFixed2
    rw [ratFloor_eq_intFloor]
    norm_num

/-- C3 amended: every metric the engine stores is the corresponding full-precision
formula rounded inside the engine (emissions and cost to 2 decimals, protein and
nitrogen efficiency to 1 decimal, yield to the nearest integer), and the stored
cost per litre is computed from the already-rounded yield — rounding is not
confined to the presentation boundary. -/
theorem engine_rounding_amended (f n c : ℚ) :
    (updateParams f n c).emissions = jsToFixed2 (baseEmissions f) ∧
    (updateParams f n c).yield = jsMathRound (baseYield f) ∧
    (updateParams f n c).proteinEfficiency = jsToFixed1 (baseProteinEfficiency f) ∧
    (updateParams f n c).nitrogenEfficiency = jsToFixed1 (baseNitrogenEfficiency n) ∧
    (updateParams f n c).costPerLitre =
      jsToFixed2 (0.25 + (f * c * 365) / jsMathRound (baseYield f)) :=
  ⟨rfl, rfl, rfl, rfl, rfl⟩

/-- C2 (code bug): at `concentrateFeed = -79.42` the derived yield is exactly 0,
yet the engine performs the cost-per-litre division by that zero yield
unconditionally — there is no `yield == 0` guard and no domain-error return
anywhere on the path (`updateParams` always produces a plain `Params` record).
In JS the division produces `-Infinity`, which propagates to the stored metric;
in this `ℚ` model division by zero is the convention value 0. -/
theorem costPerLitre_no_zero_yield_guard :
    calculateYield (-79.42) = 0 ∧
    (updateParams (-79.42) 180 0.38).costPerLitre =
      jsToFixed2 (0.25 + ((-79.42 : ℚ) * 0.38 * 365) / 0) := by
  have hy : calculateYield (-79.42) = 0 := by
    unfold calculateYield jsMathRound
    rw [ratFloor_eq_intFloor]
    norm_num
  refine ⟨hy, ?_⟩
  show calculateCostPerLitre (-79.42) (calculateYield (-79.42)) 0.38 = _
  rw [hy]
  rfl

/-- Single step of the trend-window update: on a nonempty window it preserves the
length, the new last label is `getNextMonth` of the old one, and the window stays
nonempty. -/
theorem updateYieldData_step (prev : List TrendPoint) (p : Params) (m : String)
    (hne : prev ≠ []) (hm : lastMonth prev = some m) :
    (updateYieldData p prev).length = prev.length ∧
    lastMonth (updateYieldData p prev) = some (getNextMonth m) ∧
    updateYieldData p prev ≠ [] := by
  obtain ⟨pt, hpt, hptm⟩ : ∃ pt, prev.getLast? = some pt ∧ pt.month = m := by
    unfold lastMonth at hm
    cases hgl : prev.getLast? with
    | none => rw [hgl] at hm; exact absurd hm (by simp)
    | some pt => rw [hgl] at hm; exact ⟨pt, rfl, by simpa using hm⟩
  have hrw : updateYieldData p prev =
      prev.drop 1 ++ [{ month := getNextMonth pt.month, yield := p.yield,
                        target := TARGET_YIELD, cost := p.costPerLitre }] := by
    unfold updateYieldData
    rw [hpt]
  refine ⟨?_, ?_, ?_⟩
  · rw [hrw, List.length_append, List.length_drop]
    have hpos := List.length_pos.mpr hne
    simp only [List.length_cons, List.length_nil]
    omega
  · unfold lastMonth
    rw [hrw, getLast?_append_singleton]
    show some (getNextMonth pt.month) = some (getNextMonth m)
    rw [hptm]
  · rw [hrw]
    simp

/-- C6: over any two consecutive trend-window updates from a nonempty window whose
newest label is a month abbreviation, the window length stays constant (one point
appended, the oldest dropped), and each new newest label is exactly the calendar
successor (`monthSucc`, wrapping Dec to Jan) of the previous newest label. -/
theorem trendWindow_invariant (prev : List TrendPoint) (p1 p2 : Params) (m : String)
    (hne : prev ≠ []) (hm : lastMonth prev = some m) (hmem : m ∈ months) :
    (updateYieldData p1 prev).length = prev.length ∧
    (updateYieldData p2 (updateYieldData p1 prev)).length = prev.length ∧
    lastMonth (updateYieldData p1 prev) = some (monthSucc m) ∧
    lastMonth (updateYieldData p2 (updateYieldData p1 prev)) =
      some (monthSucc (monthSucc m)) := by
  obtain ⟨hl1, hm1', hne1⟩ := updateYieldData_step prev p1 m hne hm
  have hm1 : lastMonth (updateYieldData p1 prev) = some (monthSucc m) := by
    rw [hm1', getNextMonth_eq_monthSucc hmem]
  obtain ⟨hl2, hm2', hne2⟩ :=
    updateYieldData_step (updateYieldData p1 prev) p2 (monthSucc m) hne1 hm1
  exact ⟨hl1, by rw [hl2, hl1], hm1,
    by rw [hm2', getNextMonth_eq_monthSucc (monthSucc_mem hmem)]⟩

/-- C6 witness: the theorem applied to the initial four-point window (Jan..Apr)
with two successive parameter updates; the labels advance Apr → May → Jun. -/
theorem trendWindow_invariant_witness :
    initialYieldData ≠ [] ∧
    lastMonth initialYieldData = some "Apr" ∧
    "Apr" ∈ months ∧
    ((updateYieldData (updateParams 9 180 0.38) initialYieldData).length =
       initialYieldData.length ∧
     (updateYieldData (updateParams 10 180 0.38)
        (updateYieldData (updateParams 9 180 0.38) initialYieldData)).length =
       initialYieldData.length ∧
     lastMonth (updateYieldData (updateParams 9 180 0.38) initialYieldData) =
       some (monthSucc "Apr") ∧
     lastMonth (updateYieldData (updateParams 10 180 0.38)
        (updateYieldData (updateParams 9 180 0.38) initialYieldData)) =
       some (monthSucc (monthSucc "Apr"))) :=
  ⟨List.cons_ne_nil _ _, rfl, by decide,
    trendWindow_invariant initialYieldData (updateParams 9 180 0.38)
      (updateParams 10 180 0.38) "Apr" (List.cons_ne_nil _ _) rfl (by decide)⟩

/-- C1 amended: rule 1 of `generateSuggestions` fires iff the stored emissions
exceed the 1.5 threshold, and when it fires the list head is the high-priority
emission suggestion whose reduced feed is `F * 0.9` rounded to 2 decimals (not
`F * 0.9` itself) and whose reported reduction figure is
`round1((E - calculateEmissions(round2(0.9 F))) / E * 100)` computed from the
stored, already-rounded emissions `E` — which can differ from the claim's
`(emissions(F) - emissions(0.9 F)) / emissions(F) * 100` rounded to 1 decimal. -/
theorem emissionSuggestion_fires_iff_amended (p : Params) :
    ((∃ s ∈ generateSuggestions p, s.type = "emission") ↔
      EMISSIONS_THRESHOLD < p.emissions) ∧
    (EMISSIONS_THRESHOLD < p.emissions →
      (generateSuggestions p).head? = some
        { type := "emission", priority := "high",
          reducedFeed := some (jsToFixed2 (p.concentrateFeed * 0.9)),
          reductionFigure := some (jsToFixed1 ((p.emissions -
            calculateEmissions (jsToFixed2 (p.concentrateFeed * 0.9))) /
            p.emissions * 100)) }) := by
  by_cases hf : EMISSIONS_THRESHOLD < p.emissions
  · have hmem : ({ type := "emission", priority := "high",
                   reducedFeed := some (jsToFixed2 (p.concentrateFeed * 0.9)),
                   reductionFigure := some (jsToFixed1 ((p.emissions -
                     calculateEmissions (jsToFixed2 (p.concentrateFeed * 0.9))) /
                     p.emissions * 100)) } : Suggestion) ∈ generateSuggestions p := by
      simp only [generateSuggestions, if_pos hf, List.append_assoc, List.singleton_append]
      exact List.mem_cons_self _ _
    have hhead : (generateSuggestions p).head? = some
        { type := "emission", priority := "high",
          reducedFeed := some (jsToFixed2 (p.concentrateFeed * 0.9)),
          reductionFigure := some (jsToFixed1 ((p.emissions -
            calculateEmissions (jsToFixed2 (p.concentrateFeed * 0.9))) /
            p.emissions * 100)) } := by
      simp only [generateSuggestions, if_pos hf, List.append_assoc, List.singleton_append,
        List.cons_append, List.head?_cons]
    exact ⟨⟨fun _ => hf, fun _ => ⟨_, hmem, rfl⟩⟩, fun _ => hhead⟩
  · refine ⟨⟨fun hex => ?_, fun h => absurd h hf⟩, fun h => absurd h hf⟩
    exfalso
    obtain ⟨s, hs, hty⟩ := hex
    simp only [generateSuggestions, if_neg hf, List.nil_append, List.mem_append] at hs
    rcases hs with (h | h) | h <;> split_ifs at h <;>
      simp only [List.mem_singleton, List.not_mem_nil] at h <;>
      subst h <;> simp at hty

/-- C1 amended witness: the theorem applied at the state produced by
`updateParams 10.5 180 0.38`, whose stored emissions 1.51 exceed 1.5. -/
theorem emissionSuggestion_fires_iff_amended_witness :
    EMISSIONS_THRESHOLD < (updateParams 10.5 180 0.38).emissions ∧
    ((∃ s ∈ generateSuggestions (updateParams 10.5 180 0.38), s.type = "emission") ↔
      EMISSIONS_THRESHOLD < (updateParams 10.5 180 0.38).emissions) ∧
    (generateSuggestions (updateParams 10.5 180 0.38)).head? = some
      { type := "emission", priority := "high",
        reducedFeed := some (jsToFixed2 ((updateParams 10.5 180 0.38).concentrateFeed * 0.9)),
        reductionFigure := some (jsToFixed1 (((updateParams 10.5 180 0.38).emissions -
          calculateEmissions (jsToFixed2 ((updateParams 10.5 180 0.38).concentrateFeed * 0.9))) /
          (updateParams 10.5 180 0.38).emissions * 100)) } := by
  have hf : EMISSIONS_THRESHOLD < (updateParams 10.5 180 0.38).emissions := by
    show EMISSIONS_THRESHOLD < calculateEmissions 10.5
    unfold EMISSIONS_THRESHOLD calculateEmissions jsToFixed2
    rw [ratFloor_eq_intFloor]
    norm_num
  exact ⟨hf, (emissionSuggestion_fires_iff_amended _).1,
    (emissionSuggestion_fires_iff_amended _).2 hf⟩

/-- C1 counterexample: at the state produced by `updateParams 10.422 180 0.38`,
rule 1 fires (stored emissions 1.51 > 1.5) with reduced feed 9.38 — which is
`0.9 * F = 9.3798` rounded to 2 decimals, not `0.9 * F` itself — and reported
reduction figure 3.3, while the claim's formula
`(emissions(F) - emissions(0.9 F)) / emissions(F) * 100` rounded to 1 decimal
gives 3.5 with the exact emissions formula and 4 with the engine's rounded
emissions function: the reported figure matches neither reading. -/
theorem suggestionFigure_counterexample :
    (generateSuggestions (updateParams 10.422 180 0.38)).head? = some
      { type := "emission", priority := "high",
        reducedFeed := some 9.38, reductionFigure := some 3.3 } ∧
    0.9 * (10.422 : ℚ) = 9.3798 ∧ (9.38 : ℚ) ≠ 9.3798 ∧
    jsToFixed1 ((baseEmissions 10.422 - baseEmissions (0.9 * 10.422)) /
      baseEmissions 10.422 * 100) = 3.5 ∧
    jsToFixed1 ((calculateEmissions 10.422 - calculateEmissions (0.9 * 10.422)) /
      calculateEmissions 10.422 * 100) = 4 ∧
    (3.3 : ℚ) ≠ 3.5 ∧ (3.3 : ℚ) ≠ 4 := by
  have hem : calculateEmissions 10.422 = 1.51 := by
    unfold calculateEmissions jsToFixed2
    rw [ratFloor_eq_intFloor]
    norm_num
  have hrf : jsToFixed2 ((10.422 : ℚ) * 0.9) = 9.38 := by
    unfold jsToFixed2
    rw [ratFloor_eq_intFloor]
    norm_num
  have hpe : calculateEmissions (9.38 : ℚ) = 1.46 := by
    unfold calculateEmissions jsToFixed2
    rw [ratFloor_eq_intFloor]
    norm_num
  have hfig : jsToFixed1 (((1.51 : ℚ) - 1.46) / 1.51 * 100) = 3.3 := by
    unfold jsToFixed1
    rw [ratFloor_eq_intFloor]
    norm_num
  have hf : EMISSIONS_THRESHOLD < (updateParams 10.422 180 0.38).emissions := by
    show EMISSIONS_THRESHOLD < calculateEmissions 10.422
    rw [hem]
    unfold EMISSIONS_THRESHOLD
    norm_num
  have hcf : (updateParams 10.422 180 0.38).concentrateFeed = 10.422 := rfl
  have hem' : (updateParams 10.422 180 0.38).emissions = 1.51 := hem
  refine ⟨?_, by norm_num, by norm_num, ?_, ?_, by norm_num, by norm_num⟩
  · simp only [generateSuggestions, if_pos hf, List.append_assoc, List.singleton_append,
      List.cons_append, List.head?_cons]
    rw [hcf, hem', hrf, hpe, hfig]
  · unfold baseEmissions jsToFixed1
    rw [ratFloor_eq_intFloor]
    norm_num
  · unfold calculateEmissions jsToFixed2 jsToFixed1
    simp only [ratFloor_eq_intFloor]
    norm_num

/-- C4: against `concentrateFeed = 8.08`, interpreting "reduce feed by 20%" returns
a confirmation whose mutation sets `concentrateFeed` to exactly `6.464`
(`8.08 * (1 - 20/100)`) with `nitrogenRate` unchanged, and the confirmation text
contains the substrings "20%" and "6.46". -/
theorem reduceFeed20_confirmed :
    (processQuery "reduce feed by 20%"
      { concentrateFeed := 8.08, nitrogenRate := 180 }).kind = RespKind.confirmation ∧
    (processQuery "reduce feed by 20%"
      { concentrateFeed := 8.08, nitrogenRate := 180 }).newParams.concentrateFeed = 6.464 ∧
    (processQuery "reduce feed by 20%"
      { concentrateFeed := 8.08, nitrogenRate := 180 }).newParams.nitrogenRate = 180 ∧
    jsIncludes (processQuery "reduce feed by 20%"
      { concentrateFeed := 8.08, nitrogenRate := 180 }).text "20%" = true ∧
    jsIncludes (processQuery "reduce feed by 20%"
      { concentrateFeed := 8.08, nitrogenRate := 180 }).text "6.46" = true := by
  have ho : processQuery "reduce feed by 20%" { concentrateFeed := 8.08, nitrogenRate := 180 } =
      { kind := .confirmation,
        text := "Feed reduced by " ++ toString (20 : ℕ) ++ "% to " ++
          formatFixed2 (8.08 * (1 - ((20 : ℕ) : ℚ) / 100)) ++ " kg/day.",
        newParams := { concentrateFeed := 8.08 * (1 - ((20 : ℕ) : ℚ) / 100),
                       nitrogenRate := 180 } } := rfl
  have hfeed : (8.08 : ℚ) * (1 - ((20 : ℕ) : ℚ) / 100) = 6.464 := by
    push_cast
    norm_num
  have hfl : ((6.464 : ℚ) * 100 + 1/2).floor = 646 := by
    rw [ratFloor_eq_intFloor]
    norm_num
  have htext : formatFixed2 (8.08 * (1 - ((20 : ℕ) : ℚ) / 100)) = "6.46" := by
    unfold formatFixed2
    rw [hfeed, hfl]
    rfl
  refine ⟨by rw [ho], ?_, by rw [ho], ?_, ?_⟩
  · rw [ho]
    exact hfeed
  · rw [ho]
    show jsIncludes ("Feed reduced by " ++ toString (20 : ℕ) ++ "% to " ++
      formatFixed2 (8.08 * (1 - ((20 : ℕ) : ℚ) / 100)) ++ " kg/day.") "20%" = true
    rw [htext]
    decide
  · rw [ho]
    show jsIncludes ("Feed reduced by " ++ toString (20 : ℕ) ++ "% to " ++
      formatFixed2 (8.08 * (1 - ((20 : ℕ) : ℚ) / 100)) ++ " kg/day.") "6.46" = true
    rw [htext]
    decide

/-- C5: whenever the dispatcher reaches the reduce-feed rule and the captured
percentage is `≤ 0` or `> 100`, `processQuery` returns the validation-error
response and applies no mutation (the whole `FarmState` is unchanged), while
`handleSend` still appends exactly two log entries: the raw utterance, then the
error text. -/
theorem reduceFeedOutOfRange_no_mutation (q : String) (s : FarmState) (msgs : List Msg)
    (p : ℕ)
    (h1 : (jsIncludes (normalizeQuery q) "show" &&
           jsIncludes (normalizeQuery q) "emissions") = false)
    (h2 : (jsIncludes (normalizeQuery q) "analyze" &&
           jsIncludes (normalizeQuery q) "efficiency") = false)
    (h3 : jsIncludes (normalizeQuery q) "reduce feed" = true)
    (h4 : matchReduceFeed (normalizeQuery q) = some p)
    (h5 : p ≤ 0 ∨ 100 < p)
    (h6 : (trimChars q.data).isEmpty = false) :
    (processQuery q s).kind = RespKind.error ∧
    (processQuery q s).newParams = s ∧
    handleSend q { messages := msgs, farm := s } =
      { messages := msgs ++ [{ mtype := MsgType.user, text := q },
          { mtype := MsgType.system, text := (processQuery q s).text }],
        farm := s } := by
  have ho : processQuery q s =
      { kind := .error,
        text := "Please specify a valid reduction percentage between 1 and 100.",
        newParams := s } := by
    simp [processQuery, h1, h2, h3, h4, h5]
    omega
  refine ⟨by rw [ho], by rw [ho], ?_⟩
  simp only [handleSend, h6, Bool.false_eq_true, if_false, ho]

/-- C5 witness: the theorem applied to the utterance "reduce feed by 150%" (captured
percentage 150 > 100) against the baseline farm state, with an empty prior log. -/
theorem reduceFeedOutOfRange_no_mutation_witness :
    (jsIncludes (normalizeQuery "reduce feed by 150%") "show" &&
      jsIncludes (normalizeQuery "reduce feed by 150%") "emissions") = false ∧
    (jsIncludes (normalizeQuery "reduce feed by 150%") "analyze" &&
      jsIncludes (normalizeQuery "reduce feed by 150%") "efficiency") = false ∧
    jsIncludes (normalizeQuery "reduce feed by 150%") "reduce feed" = true ∧
    matchReduceFeed (normalizeQuery "reduce feed by 150%") = some 150 ∧
    ((150 : ℕ) ≤ 0 ∨ 100 < (150 : ℕ)) ∧
    (trimChars "reduce feed by 150%".data).isEmpty = false ∧
    ((processQuery "reduce feed by 150%"
        { concentrateFeed := 8.08, nitrogenRate := 180 }).kind = RespKind.error ∧
     (processQuery "reduce feed by 150%"
        { concentrateFeed := 8.08, nitrogenRate := 180 }).newParams =
       { concentrateFeed := 8.08, nitrogenRate := 180 } ∧
     handleSend "reduce feed by 150%"
        { messages := [], farm := { concentrateFeed := 8.08, nitrogenRate := 180 } } =
       { messages := [] ++ [{ mtype := MsgType.user, text := "reduce feed by 150%" },
           { mtype := MsgType.system,
             text := (processQuery "reduce feed by 150%"
               { concentrateFeed := 8.08, nitrogenRate := 180 }).text }],
         farm := { concentrateFeed := 8.08, nitrogenRate := 180 } }) :=
  ⟨by decide, by decide, by decide, by decide, by decide, by decide,
    reduceFeedOutOfRange_no_mutation "reduce feed by 150%"
      { concentrateFeed := 8.08, nitrogenRate := 180 } [] 150
      (by decide) (by decide) (by decide) (by decide) (by decide) (by decide)⟩
